import Mathlib

/-!
Shallow embedding of the calendar backend's conflict-detection and
event-lifecycle logic:

* data model: `Calendar`, `Event`, `Attendee` rows plus a `Store` that
  stands for the backing database session (with flags modelling a failing
  backing store on reads resp. writes);
* `CalendarService`: the service-layer functions from
  `app/services/calendar.py` (`get_user_calendars`, `get_events`,
  `check_availability`, `_events_overlap`, `create_event`, `update_event`,
  `delete_event`, `get_event_attendees`, `remove_event_attendee`);
* `Schemas`: the pydantic request models and their validators from
  `app/schemas/calendar.py`;
* `Api`: the HTTP handlers from `app/api/v1/endpoints/calendar.py`,
  returning the HTTP-visible outcome together with the resulting store.

Instants are modelled as integers; uuid generation is modelled by passing
the fresh identifiers as explicit arguments.
-/

/-- A calendar row (`app/models/calendar.py`, class `Calendar`). -/
structure Calendar where
  id : String
  user_id : String
  name : String
  is_active : Bool
deriving Repr, DecidableEq

/-- An event row (`app/models/calendar.py`, class `Event`). -/
structure Event where
  id : String
  calendar_id : String
  title : String
  start_time : Int
  end_time : Int
  status : String
deriving Repr, DecidableEq

/-- An attendee row (`app/models/calendar.py`, class `Attendee`). -/
structure Attendee where
  id : String
  event_id : String
  email : String
deriving Repr, DecidableEq

/-- The backing database as seen through one session.  `readFails` models a
backing store whose SELECT statements raise; `writeFails` one whose
commits raise.  This lets us speak about the `try/except` handlers of the
service layer. -/
structure Store where
  calendars : List Calendar
  events : List Event
  attendees : List Attendee
  readFails : Bool := false
  writeFails : Bool := false
deriving Repr, DecidableEq

/-- Outcomes visible at the HTTP boundary: an `HTTPException(code, detail)`
or an exception that escapes the handler (storage errors and the like). -/
inductive ApiError where
  | http : Nat → String → ApiError
  | exn : String → ApiError
deriving Repr, DecidableEq

/-- SQLAlchemy's `scalar_one_or_none`: `none` models the
`MultipleResultsFound` exception, `some r` the regular result. -/
def scalar_one_or_none {α : Type} : List α → Option (Option α)
  | [] => some none
  | [a] => some (some a)
  | _ :: _ :: _ => none

namespace CalendarService

/-- Overlap test `CalendarService._events_overlap`: `start1 < end2 and start2 < end1`. -/
def _events_overlap (start1 end1 start2 end2 : Int) : Bool :=
  decide (start1 < end2) && decide (start2 < end1)

/-- Pure query of `CalendarService.get_user_calendars`: calendars of the
user that are active. -/
def user_calendars (s : Store) (user_id : String) : List Calendar :=
  s.calendars.filter (fun c => c.user_id == user_id && c.is_active)

/-- Variant of `CalendarService.get_user_calendars` as called from code paths without
a `try` handler: a failing backing store raises. -/
def get_user_calendarsE (s : Store) (user_id : String) :
    Except ApiError (List Calendar) :=
  if s.readFails then .error (.exn "storage") else .ok (user_calendars s user_id)

/-- Insertion step of the `order_by(Event.start_time)` sort. -/
def insertByStart (e : Event) : List Event → List Event
  | [] => [e]
  | x :: xs =>
    if e.start_time ≤ x.start_time then e :: x :: xs else x :: insertByStart e xs

/-- The `order_by(Event.start_time)` clause of `get_events`. -/
def orderByStart : List Event → List Event
  | [] => []
  | x :: xs => insertByStart x (orderByStart xs)

/-- Model of `CalendarService.get_events`.  Mirrors the source: when no
`calendar_ids` are passed (or an empty list, which is falsy in Python) the
user's calendars are fetched; the query keeps events of those calendars
with `start_time >= start_date` and `end_time <= end_date`, ordered by
start time.  The surrounding `try/except` turns any backing-store failure
into the empty list. -/
def get_events (s : Store) (user_id : String)
    (start_date end_date : Option Int) (calendar_ids : Option (List String)) :
    List Event :=
  if s.readFails then []
  else
    let cids : List String :=
      match calendar_ids with
      | none => (user_calendars s user_id).map (·.id)
      | some [] => (user_calendars s user_id).map (·.id)
      | some ids => ids
    let q : List Event := s.events.filter (fun e => cids.contains e.calendar_id)
    let q : List Event := match start_date with
      | some d => q.filter (fun e => decide (d ≤ e.start_time))
      | none => q
    let q : List Event := match end_date with
      | some d => q.filter (fun e => decide (e.end_time ≤ d))
      | none => q
    orderByStart q

/-- Model of `CalendarService.check_availability`: fetch the user's events for the
candidate range, drop the excluded event, and report unavailable iff some
remaining event overlaps the candidate window.  (`get_events` never
raises, so the handler's own `except` branch is unreachable.) -/
def check_availability (s : Store) (user_id : String)
    (start_time end_time : Int) (exclude_event_id : Option String) : Bool :=
  let events : List Event := get_events s user_id (some start_time) (some end_time) none
  let events : List Event :=
    match exclude_event_id with
    | some eid => events.filter (fun e => !(e.id == eid))
    | none => events
  !(events.any (fun e => _events_overlap start_time end_time e.start_time e.end_time))

/-- Model of `CalendarService.get_event` as used by the endpoints (no `try`):
raises on a failing store or on duplicate ids, otherwise returns the row
or `none`. -/
def get_eventE (s : Store) (event_id : String) : Except ApiError (Option Event) :=
  if s.readFails then .error (.exn "storage")
  else
    match scalar_one_or_none (s.events.filter (fun e => e.id == event_id)) with
    | none => .error (.exn "MultipleResultsFound")
    | some r => .ok r

/-- Model of `CalendarService.get_event_attendees` (no `try`): the attendee rows of
an event. -/
def get_event_attendees (s : Store) (event_id : String) :
    Except ApiError (List Attendee) :=
  if s.readFails then .error (.exn "storage")
  else .ok (s.attendees.filter (fun a => a.event_id == event_id))

/-- Model of `CalendarService.create_event` together with `_add_attendees`: the
event row is committed first; only afterwards are the attendee rows added
(each with its fresh id).  A failing commit raises and leaves the session
as it was, so no attendee row exists unless the event write succeeded. -/
def create_event (s : Store) (calendar_id title : String)
    (start_time end_time : Int) (attendee_emails : List String)
    (new_event_id : String) (attendee_ids : List String) :
    Except ApiError (Store × Event) :=
  let event : Event :=
    { id := new_event_id, calendar_id := calendar_id, title := title,
      start_time := start_time, end_time := end_time, status := "confirmed" }
  if s.writeFails then .error (.exn "storage")
  else
    let s1 : Store := { s with events := s.events ++ [event] }
    let newAtts : List Attendee :=
      (attendee_ids.zip attendee_emails).map
        (fun p => { id := p.1, event_id := new_event_id, email := p.2 })
    let s2 : Store := { s1 with attendees := s1.attendees ++ newAtts }
    .ok (s2, event)

/-- The update payload after `dict(exclude_unset=True)`: `none` stands for
a field that is absent (or explicitly `null`, which the service skips via
`value is not None`). -/
structure EventUpdate where
  title : Option String := none
  start_time : Option Int := none
  end_time : Option Int := none
  status : Option String := none
deriving Repr, DecidableEq

/-- The `setattr` loop of `CalendarService.update_event`: provided non-null
fields replace the current ones. -/
def applyUpdate (e : Event) (u : EventUpdate) : Event :=
  { e with
    title := u.title.getD e.title,
    start_time := u.start_time.getD e.start_time,
    end_time := u.end_time.getD e.end_time,
    status := u.status.getD e.status }

/-- Model of `CalendarService.update_event`: inside a broad `try/except` returning
`None` on any failure; re-fetches the event, applies the provided fields
and commits. -/
def update_event (s : Store) (event_id : String) (u : EventUpdate) :
    Option (Store × Event) :=
  if s.readFails then none
  else
    match scalar_one_or_none (s.events.filter (fun e => e.id == event_id)) with
    | none => none
    | some none => none
    | some (some e) =>
      if s.writeFails then none
      else
        let e' := applyUpdate e u
        some ({ s with events :=
                  s.events.map (fun ev => if ev.id == event_id then e' else ev) },
              e')

/-- Model of `CalendarService.delete_event`: inside a broad `try/except` returning
`False` on any failure.  NOTE (faithful to the source): the statement under
the comment "Delete attendees first" is `db.execute(select(Attendee)...)`,
a SELECT — it deletes nothing.  Only the event row itself is removed. -/
def delete_event (s : Store) (event_id : String) : Store × Bool :=
  if s.readFails then (s, false)
  else
    match scalar_one_or_none (s.events.filter (fun e => e.id == event_id)) with
    | none => (s, false)
    | some none => (s, false)
    | some (some _) =>
      if s.writeFails then (s, false)
      else ({ s with events := s.events.filter (fun e => !(e.id == event_id)) },
            true)

/-- Model of `CalendarService.remove_event_attendee`: inside a broad `try/except`
returning `False` on any failure; looks the attendee up by its id alone
and deletes it. -/
def remove_event_attendee (s : Store) (attendee_id : String) : Store × Bool :=
  if s.readFails then (s, false)
  else
    match scalar_one_or_none (s.attendees.filter (fun a => a.id == attendee_id)) with
    | none => (s, false)
    | some none => (s, false)
    | some (some _) =>
      if s.writeFails then (s, false)
      else ({ s with attendees := s.attendees.filter (fun a => !(a.id == attendee_id)) },
            true)

end CalendarService

namespace Schemas

/-- Schema `EventCreate` (`app/schemas/calendar.py`), reduced to the fields the
calendar slice uses; `attendees` keeps only the emails. -/
structure EventCreate where
  calendar_id : String
  title : String
  start_time : Int
  end_time : Int
  attendees : List String := []
deriving Repr, DecidableEq

/-- Validator `EventCreate.end_time_must_be_after_start_time`: pydantic rejects the
request (HTTP 422) unless `end_time > start_time`. -/
def eventCreateValid (r : EventCreate) : Bool :=
  decide (r.start_time < r.end_time)

/-- Validator `EventUpdate.end_time_must_be_after_start_time`: the validator fires
only when both `start_time` and `end_time` are present (and non-null) in
the payload; a payload carrying just one bound is never compared against
the stored event. -/
def eventUpdateValid (u : CalendarService.EventUpdate) : Bool :=
  match u.start_time, u.end_time with
  | some st, some en => decide (st < en)
  | _, _ => true

end Schemas

namespace Api

open CalendarService Schemas

/-- Endpoint `POST /events` (`create_event`): pydantic validation, then
calendar-ownership check (404), then availability check (409), then the
service-level create.  The second component is the store after the
request. -/
def create_event (s : Store) (user_id : String) (req : EventCreate)
    (new_event_id : String) (attendee_ids : List String) :
    Except ApiError Event × Store :=
  if !(eventCreateValid req) then
    (.error (.http 422 "end_time must be after start_time"), s)
  else if s.readFails then (.error (.exn "storage"), s)
  else if ((user_calendars s user_id).map (·.id)).contains req.calendar_id then
    if check_availability s user_id req.start_time req.end_time none then
      match CalendarService.create_event s req.calendar_id req.title
          req.start_time req.end_time req.attendees new_event_id attendee_ids with
      | .error e => (.error e, s)
      | .ok (s', ev) => (.ok ev, s')
    else (.error (.http 409 "Time slot is not available"), s)
  else (.error (.http 404 "Calendar not found"), s)

/-- Endpoint `GET /events/\x7bevent_id\x7d`: fetch, 404 when missing, 404 again when the
event's calendar is not among the acting user's calendars. -/
def get_event (s : Store) (user_id event_id : String) :
    Except ApiError Event × Store :=
  match get_eventE s event_id with
  | .error e => (.error e, s)
  | .ok none => (.error (.http 404 "Event not found"), s)
  | .ok (some ev) =>
    if ((user_calendars s user_id).map (·.id)).contains ev.calendar_id then
      (.ok ev, s)
    else (.error (.http 404 "Event not found"), s)

/-- Endpoint `PUT /events/\x7bevent_id\x7d`: pydantic validation, fetch (404), ownership
(404), availability re-check when a time field is supplied (409, with the
event's own id excluded and unspecified bounds defaulting to the stored
values), then the service-level update (500 when it returns `None`). -/
def update_event (s : Store) (user_id event_id : String)
    (req : CalendarService.EventUpdate) : Except ApiError Event × Store :=
  if !(eventUpdateValid req) then
    (.error (.http 422 "end_time must be after start_time"), s)
  else
    match get_eventE s event_id with
    | .error e => (.error e, s)
    | .ok none => (.error (.http 404 "Event not found"), s)
    | .ok (some ev) =>
      if ((user_calendars s user_id).map (·.id)).contains ev.calendar_id then
        let timeTouched := req.start_time.isSome || req.end_time.isSome
        let new_start := req.start_time.getD ev.start_time
        let new_end := req.end_time.getD ev.end_time
        if timeTouched &&
            !(check_availability s user_id new_start new_end (some event_id)) then
          (.error (.http 409 "Time slot is not available"), s)
        else
          match CalendarService.update_event s event_id req with
          | none => (.error (.http 500 "Failed to update event"), s)
          | some (s', ev') => (.ok ev', s')
      else (.error (.http 404 "Event not found"), s)

/-- Endpoint `DELETE /events/\x7bevent_id\x7d`: fetch (404), ownership (404), then the
service-level delete (500 when it reports failure). -/
def delete_event (s : Store) (user_id event_id : String) :
    Except ApiError Unit × Store :=
  match get_eventE s event_id with
  | .error e => (.error e, s)
  | .ok none => (.error (.http 404 "Event not found"), s)
  | .ok (some ev) =>
    if ((user_calendars s user_id).map (·.id)).contains ev.calendar_id then
      match CalendarService.delete_event s event_id with
      | (s', true) => (.ok (), s')
      | (s', false) => (.error (.http 500 "Failed to delete event"), s')
    else (.error (.http 404 "Event not found"), s)

/-- Endpoint `DELETE /attendees/\x7battendee_id\x7d`: calls the service directly — the
acting user is never consulted. -/
def remove_event_attendee (s : Store) (_user_id attendee_id : String) :
    Except ApiError Unit × Store :=
  match CalendarService.remove_event_attendee s attendee_id with
  | (s', true) => (.ok (), s')
  | (s', false) => (.error (.http 404 "Attendee not found"), s')

end Api

section Lemmas

open CalendarService

theorem mem_insertByStart {a e : Event} {l : List Event} :
    a ∈ insertByStart e l ↔ a = e ∨ a ∈ l := by
  induction l with
  | nil => simp [insertByStart]
  | cons x xs ih =>
    simp only [insertByStart]
    split
    · simp
    · simp only [List.mem_cons, ih]
      tauto

theorem mem_orderByStart {a : Event} {l : List Event} :
    a ∈ orderByStart l ↔ a ∈ l := by
  induction l with
  | nil => simp [orderByStart]
  | cons x xs ih =>
    simp [orderByStart, mem_insertByStart, ih]

/-- Any event produced by `get_events` is an event of the store lying on
one of the user's calendars (when called, as `check_availability` does,
without explicit calendar ids). -/
theorem mem_get_events {s : Store} {u : String} {sd ed : Option Int} {a : Event}
    (h : a ∈ get_events s u sd ed none) :
    a ∈ s.events ∧ ((user_calendars s u).map (·.id)).contains a.calendar_id = true := by
  unfold get_events at h
  split at h
  · simp at h
  · simp only [mem_orderByStart] at h
    have h1 : a ∈ (s.events.filter
        (fun e => (((user_calendars s u).map (·.id)).contains e.calendar_id))) := by
      cases sd <;> cases ed <;> simp_all [List.mem_filter]
    simpa [List.mem_filter] using h1

end Lemmas

/-- Store for C1: one user with one calendar holding the event `[0,10)`. -/
def c1Store : Store :=
  { calendars := [{ id := "c1", user_id := "u1", name := "main", is_active := true }],
    events := [{ id := "e1", calendar_id := "c1", title := "standup",
                 start_time := 0, end_time := 10, status := "confirmed" }],
    attendees := [] }

/-- C1 (failing input): the event `[0,10)` overlaps the candidate window
`[5,6)`, yet `check_availability` reports the window as available — the
fetch keeps only events with `start_time >= 5` and `end_time <= 6`, i.e.
events fully contained in the window, so the partially overlapping event
is never compared — and the create endpoint therefore accepts a second,
conflicting event on the same calendar. -/
theorem c1_availability_misses_partial_overlap :
    CalendarService._events_overlap 5 6 0 10 = true ∧
    CalendarService.check_availability c1Store "u1" 5 6 none = true ∧
    (Api.create_event c1Store "u1"
        { calendar_id := "c1", title := "sync", start_time := 5, end_time := 6 }
        "e2" []).1 =
      .ok { id := "e2", calendar_id := "c1", title := "sync",
            start_time := 5, end_time := 6, status := "confirmed" } :=
  ⟨rfl, rfl, rfl⟩

/-- C3: the create endpoint checks calendar ownership first (404 — before
and regardless of availability), then availability (409, store untouched),
and only then persists; when the event commit fails the error propagates
and no attendee row is written, and on success the attendee rows are
written together with (after) the event row. -/
theorem c3_create_pipeline (s : Store) (u : String) (req : Schemas.EventCreate)
    (newId : String) (attIds : List String)
    (hr : s.readFails = false) (hv : Schemas.eventCreateValid req = true) :
    ((¬ ∃ c ∈ CalendarService.user_calendars s u, c.id = req.calendar_id) →
      Api.create_event s u req newId attIds =
        (.error (.http 404 "Calendar not found"), s)) ∧
    ((∃ c ∈ CalendarService.user_calendars s u, c.id = req.calendar_id) →
      CalendarService.check_availability s u req.start_time req.end_time none = false →
      Api.create_event s u req newId attIds =
        (.error (.http 409 "Time slot is not available"), s)) ∧
    ((∃ c ∈ CalendarService.user_calendars s u, c.id = req.calendar_id) →
      CalendarService.check_availability s u req.start_time req.end_time none = true →
      s.writeFails = true →
      Api.create_event s u req newId attIds = (.error (.exn "storage"), s)) ∧
    ((∃ c ∈ CalendarService.user_calendars s u, c.id = req.calendar_id) →
      CalendarService.check_availability s u req.start_time req.end_time none = true →
      s.writeFails = false →
      Api.create_event s u req newId attIds =
        (.ok { id := newId, calendar_id := req.calendar_id, title := req.title,
               start_time := req.start_time, end_time := req.end_time,
               status := "confirmed" },
         { s with
             events := s.events ++
               [{ id := newId, calendar_id := req.calendar_id, title := req.title,
                  start_time := req.start_time, end_time := req.end_time,
                  status := "confirmed" }],
             attendees := s.attendees ++
               (attIds.zip req.attendees).map
                 (fun p => { id := p.1, event_id := newId, email := p.2 }) })) := by
  refine ⟨fun hno => ?_, fun hyes hbusy => ?_, fun hyes hfree hw => ?_,
          fun hyes hfree hw => ?_⟩
  · simp [Api.create_event, CalendarService.create_event, hr, hv, hno]
  · simp [Api.create_event, CalendarService.create_event, hr, hv, hyes, hbusy]
  · simp [Api.create_event, CalendarService.create_event, hr, hv, hyes, hfree, hw]
  · simp [Api.create_event, CalendarService.create_event, hr, hv, hyes, hfree, hw]

/-- Store for the C3 witness: a user with an empty calendar. -/
def c3Store : Store :=
  { calendars := [{ id := "c1", user_id := "u1", name := "main", is_active := true }],
    events := [], attendees := [] }

/-- Witness for C3: creating on a free calendar persists the event and its
attendee row; creating on someone else's calendar id is a 404. -/
theorem c3_create_pipeline_witness :
    Api.create_event c3Store "u1"
        { calendar_id := "c1", title := "sync", start_time := 0, end_time := 10,
          attendees := ["alice@example.com"] } "e1" ["a1"] =
      (.ok { id := "e1", calendar_id := "c1", title := "sync",
             start_time := 0, end_time := 10, status := "confirmed" },
       { c3Store with
           events := c3Store.events ++
             [{ id := "e1", calendar_id := "c1", title := "sync",
                start_time := 0, end_time := 10, status := "confirmed" }],
           attendees := c3Store.attendees ++
             (["a1"].zip ["alice@example.com"]).map
               (fun p => { id := p.1, event_id := "e1", email := p.2 }) }) ∧
    Api.create_event c3Store "u2"
        { calendar_id := "c1", title := "sync", start_time := 0, end_time := 10 }
        "e1" [] =
      (.error (.http 404 "Calendar not found"), c3Store) :=
  ⟨(c3_create_pipeline c3Store "u1"
      { calendar_id := "c1", title := "sync", start_time := 0, end_time := 10,
        attendees := ["alice@example.com"] } "e1" ["a1"] rfl (by decide)).2.2.2
      (by decide) rfl rfl,
   (c3_create_pipeline c3Store "u2"
      { calendar_id := "c1", title := "sync", start_time := 0, end_time := 10 }
      "e1" [] rfl (by decide)).1 (by decide)⟩

/-- Store for C4: one event with one attendee row. -/
def c4Store : Store :=
  { calendars := [{ id := "c1", user_id := "u1", name := "main", is_active := true }],
    events := [{ id := "e1", calendar_id := "c1", title := "standup",
                 start_time := 0, end_time := 10, status := "confirmed" }],
    attendees := [{ id := "a1", event_id := "e1", email := "alice@example.com" }] }

/-- C4 (failing input): deleting event `e1` succeeds and removes the event
row, but the attendee lookup for `e1` afterwards still returns the
attendee — the "Delete attendees first" step of `delete_event` executes a
SELECT, not a delete, so no cascade happens. -/
theorem c4_delete_leaves_attendees :
    (Api.delete_event c4Store "u1" "e1").1 = .ok () ∧
    ((Api.delete_event c4Store "u1" "e1").2).events = [] ∧
    CalendarService.get_event_attendees (Api.delete_event c4Store "u1" "e1").2 "e1" =
      .ok [{ id := "a1", event_id := "e1", email := "alice@example.com" }] :=
  ⟨rfl, rfl, rfl⟩

/-- C5 (failing input: any backing store whose reads fail): `get_events`
swallows the storage failure into the empty list, and `check_availability`
then reports every window as available — the failure is downgraded to a
business result instead of being surfaced. -/
theorem c5_fetch_failure_reports_available (s : Store) (u : String)
    (sd ed : Option Int) (cals : Option (List String))
    (st en : Int) (excl : Option String)
    (h : s.readFails = true) :
    CalendarService.get_events s u sd ed cals = [] ∧
    CalendarService.check_availability s u st en excl = true := by
  constructor
  · unfold CalendarService.get_events
    simp [h]
  · unfold CalendarService.check_availability CalendarService.get_events
    cases excl <;> simp [h]

/-- Witness for C5: a store whose reads fail, with an event that overlaps
the queried window sitting in it. -/
theorem c5_fetch_failure_reports_available_witness :
    CalendarService.get_events
      { c1Store with readFails := true } "u1" (some 0) (some 10) none = [] ∧
    CalendarService.check_availability
      { c1Store with readFails := true } "u1" 0 10 none = true :=
  c5_fetch_failure_reports_available _ "u1" (some 0) (some 10) none 0 10 none rfl

/-- Store for C6: one user, one calendar, one event `[10,20)`. -/
def c6Store : Store :=
  { calendars := [{ id := "c1", user_id := "u1", name := "main", is_active := true }],
    events := [{ id := "e1", calendar_id := "c1", title := "standup",
                 start_time := 10, end_time := 20, status := "confirmed" }],
    attendees := [] }

/-- C6 counterexample: an update supplying only `end_time := 5` against the
stored event `[10,20)` passes the `EventUpdate` validator (which compares
only fields present in the payload, never the stored values), is accepted,
and stores an event with `end_time = 5 < start_time = 10` — the claim says
every such request is rejected and the invariant holds after any update. -/
theorem c6_single_bound_update_accepted :
    Schemas.eventUpdateValid { end_time := some 5 } = true ∧
    (Api.update_event c6Store "u1" "e1" { end_time := some 5 }).1 =
      .ok { id := "e1", calendar_id := "c1", title := "standup",
            start_time := 10, end_time := 5, status := "confirmed" } ∧
    ((Api.update_event c6Store "u1" "e1" { end_time := some 5 }).2).events =
      [{ id := "e1", calendar_id := "c1", title := "standup",
         start_time := 10, end_time := 5, status := "confirmed" }] :=
  ⟨rfl, rfl, rfl⟩

/-- C6 (amended): a create request with `end_time ≤ start_time` is rejected
unconditionally with the invalid-input error, regardless of availability
or ownership; an update request is so rejected exactly when it supplies
both `start_time` and `end_time` — an update supplying at most one bound
is never validated against the event's stored values. -/
theorem c6_time_order_validation :
    (∀ (s : Store) (u : String) (req : Schemas.EventCreate) (newId : String)
        (attIds : List String),
      req.end_time ≤ req.start_time →
      Api.create_event s u req newId attIds =
        (.error (.http 422 "end_time must be after start_time"), s)) ∧
    (∀ (s : Store) (u eid : String) (upd : CalendarService.EventUpdate)
        (st en : Int),
      upd.start_time = some st → upd.end_time = some en → en ≤ st →
      Api.update_event s u eid upd =
        (.error (.http 422 "end_time must be after start_time"), s)) := by
  constructor
  · intro s u req newId attIds h
    simp [Api.create_event, Schemas.eventCreateValid, not_lt.mpr h]
  · intro s u eid upd st en h1 h2 h3
    simp [Api.update_event, Schemas.eventUpdateValid, h1, h2, not_lt.mpr h3]

/-- Witness for C6 (amended) at a degenerate window `[7,7)`. -/
theorem c6_time_order_validation_witness :
    Api.create_event c6Store "u1"
        { calendar_id := "c1", title := "sync", start_time := 7, end_time := 7 }
        "e2" [] =
      (.error (.http 422 "end_time must be after start_time"), c6Store) ∧
    Api.update_event c6Store "u1" "e1"
        { start_time := some 7, end_time := some 7 } =
      (.error (.http 422 "end_time must be after start_time"), c6Store) :=
  ⟨c6_time_order_validation.1 c6Store "u1"
     { calendar_id := "c1", title := "sync", start_time := 7, end_time := 7 }
     "e2" [] (by decide),
   c6_time_order_validation.2 c6Store "u1" "e1"
     { start_time := some 7, end_time := some 7 } 7 7 rfl rfl (by decide)⟩

/-- Store for C7: two events on the same calendar occupying the same
window `[5,6)`. -/
def c7Store : Store :=
  { calendars := [{ id := "c1", user_id := "u1", name := "main", is_active := true }],
    events := [{ id := "e1", calendar_id := "c1", title := "standup",
                 start_time := 5, end_time := 6, status := "confirmed" },
               { id := "f1", calendar_id := "c1", title := "retro",
                 start_time := 5, end_time := 6, status := "confirmed" }],
    attendees := [] }

/-- C7 counterexample: an update of `e1` supplying `start_time := 5`, the
value the event already has — so no time field changes and `applyUpdate` is
the identity on the stored event — nevertheless invokes the availability
check (observably: it is rejected 409 because of the other event `f1`),
while the claim says an update that changes no time field never invokes
the check. -/
theorem c7_unchanged_time_update_invokes_check :
    CalendarService.applyUpdate
        { id := "e1", calendar_id := "c1", title := "standup",
          start_time := 5, end_time := 6, status := "confirmed" }
        { start_time := some 5 } =
      { id := "e1", calendar_id := "c1", title := "standup",
        start_time := 5, end_time := 6, status := "confirmed" } ∧
    Api.update_event c7Store "u1" "e1" { start_time := some 5 } =
      (.error (.http 409 "Time slot is not available"), c7Store) :=
  ⟨rfl, rfl⟩

/-- Helper: `get_event` as the endpoints call it only ever raises
storage-level exceptions, never an `HTTPException`. -/
theorem get_eventE_error_exn {s : Store} {eid : String} {e : ApiError}
    (h : CalendarService.get_eventE s eid = .error e) : ∃ m, e = .exn m := by
  unfold CalendarService.get_eventE at h
  split at h
  · exact ⟨"storage", by simpa using h.symm⟩
  · split at h
    · exact ⟨"MultipleResultsFound", by simpa using h.symm⟩
    · simp at h

/-- C7 (amended): the availability check is re-run whenever the request
supplies `start_time` or `end_time` — even when the supplied values equal
the stored ones — with unspecified bounds defaulting to the stored values
and the event's own id excluded, rejecting 409 on conflict; an update
supplying neither time field is never rejected for availability. -/
theorem c7_update_availability_recheck (s : Store) (u eid : String)
    (req : CalendarService.EventUpdate) :
    (req.start_time = none → req.end_time = none →
      (Api.update_event s u eid req).1 ≠
        .error (.http 409 "Time slot is not available")) ∧
    (∀ ev : Event, Schemas.eventUpdateValid req = true →
      CalendarService.get_eventE s eid = .ok (some ev) →
      (∃ c ∈ CalendarService.user_calendars s u, c.id = ev.calendar_id) →
      (req.start_time.isSome || req.end_time.isSome) = true →
      CalendarService.check_availability s u (req.start_time.getD ev.start_time)
          (req.end_time.getD ev.end_time) (some eid) = false →
      Api.update_event s u eid req =
        (.error (.http 409 "Time slot is not available"), s)) := by
  constructor
  · intro h1 h2
    unfold Api.update_event
    cases hv : Schemas.eventUpdateValid req
    · simp
    · match hge : CalendarService.get_eventE s eid with
      | .error e =>
        obtain ⟨m, rfl⟩ := get_eventE_error_exn hge
        simp [hge]
      | .ok none => simp [hge]
      | .ok (some ev) =>
        simp only [hge, Bool.not_true, Bool.false_eq_true, if_false]
        split
        · simp [h1, h2, CalendarService.update_event]
          split <;> simp
        · simp
  · intro ev hv hge hown htime hav
    simp [Api.update_event, hv, hge, hown, htime, hav]

/-- Witness for C7 (amended): growing `e1` to `[5,7)` is rejected because
of `f1`; an update touching no time field is not availability-rejected. -/
theorem c7_update_availability_recheck_witness :
    Api.update_event c7Store "u1" "e1" { end_time := some 7 } =
      (.error (.http 409 "Time slot is not available"), c7Store) ∧
    (Api.update_event c7Store "u1" "e1" { title := some "renamed" }).1 ≠
      .error (.http 409 "Time slot is not available") :=
  ⟨(c7_update_availability_recheck c7Store "u1" "e1" { end_time := some 7 }).2
     { id := "e1", calendar_id := "c1", title := "standup",
       start_time := 5, end_time := 6, status := "confirmed" }
     rfl rfl (by decide) rfl rfl,
   (c7_update_availability_recheck c7Store "u1" "e1" { title := some "renamed" }).1
     rfl rfl⟩

/-- C9: for the read, update and delete endpoints, acting on an event whose
calendar is not among the acting user's calendars produces exactly the
same observable outcome — error and resulting store — as acting on a
non-existent event id: the common `404 "Event not found"` with the store
untouched. -/
theorem c9_foreign_event_equals_missing (s : Store) (u eidF eidM : String)
    (ev : Event)
    (hF : CalendarService.get_eventE s eidF = .ok (some ev))
    (hown : ¬ ∃ c ∈ CalendarService.user_calendars s u, c.id = ev.calendar_id)
    (hM : CalendarService.get_eventE s eidM = .ok none) :
    Api.get_event s u eidF = Api.get_event s u eidM ∧
    (∀ req : CalendarService.EventUpdate,
      Api.update_event s u eidF req = Api.update_event s u eidM req) ∧
    Api.delete_event s u eidF = Api.delete_event s u eidM ∧
    Api.get_event s u eidF = (.error (.http 404 "Event not found"), s) := by
  refine ⟨?_, fun req => ?_, ?_, ?_⟩
  · simp [Api.get_event, hF, hM, hown]
  · cases hv : Schemas.eventUpdateValid req <;>
      simp [Api.update_event, hv, hF, hM, hown]
  · simp [Api.delete_event, hF, hM, hown]
  · simp [Api.get_event, hF, hown]

/-- Store for the C9 witness: two users with one calendar each; the event
belongs to `u2`'s calendar. -/
def c9Store : Store :=
  { calendars := [{ id := "c1", user_id := "u1", name := "mine", is_active := true },
                  { id := "c2", user_id := "u2", name := "theirs", is_active := true }],
    events := [{ id := "e2", calendar_id := "c2", title := "secret",
                 start_time := 0, end_time := 10, status := "confirmed" }],
    attendees := [] }

/-- Witness for C9: for user `u1`, reading the foreign event `e2` and
reading the absent id `zz` are the same observable outcome, and likewise
for update and delete. -/
theorem c9_foreign_event_equals_missing_witness :
    Api.get_event c9Store "u1" "e2" = Api.get_event c9Store "u1" "zz" ∧
    Api.update_event c9Store "u1" "e2" { title := some "x" } =
      Api.update_event c9Store "u1" "zz" { title := some "x" } ∧
    Api.delete_event c9Store "u1" "e2" = Api.delete_event c9Store "u1" "zz" ∧
    Api.get_event c9Store "u1" "e2" = (.error (.http 404 "Event not found"), c9Store) :=
  have h := c9_foreign_event_equals_missing c9Store "u1" "e2" "zz"
    { id := "e2", calendar_id := "c2", title := "secret",
      start_time := 0, end_time := 10, status := "confirmed" }
    rfl (by decide) rfl
  ⟨h.1, h.2.1 { title := some "x" }, h.2.2.1, h.2.2.2⟩

/-- C10: the attendee-removal endpoint never consults the acting user —
any two users get the same outcome and final state — and for an attendee
id present in the store (uniquely, as ids are) it deletes the attendee and
reports success, with no check that the attendee's event lies on one of
the caller's calendars. -/
theorem c10_remove_attendee_ignores_user :
    (∀ (s : Store) (u1 u2 aid : String),
      Api.remove_event_attendee s u1 aid = Api.remove_event_attendee s u2 aid) ∧
    (∀ (s : Store) (u aid : String) (att : Attendee),
      s.readFails = false → s.writeFails = false →
      s.attendees.filter (fun a => a.id == aid) = [att] →
      Api.remove_event_attendee s u aid =
        (.ok (), { s with attendees := s.attendees.filter (fun a => !(a.id == aid)) })) := by
  constructor
  · intro s u1 u2 aid
    rfl
  · intro s u aid att hr hw hfind
    simp [Api.remove_event_attendee, CalendarService.remove_event_attendee,
          hr, hw, hfind, scalar_one_or_none]

/-- Store for the C10 witness: the attendee sits on an event of `u2`'s
calendar, yet the removal below succeeds for user `u1` as well. -/
def c10Store : Store :=
  { calendars := [{ id := "c2", user_id := "u2", name := "theirs", is_active := true }],
    events := [{ id := "e2", calendar_id := "c2", title := "secret",
                 start_time := 0, end_time := 10, status := "confirmed" }],
    attendees := [{ id := "a1", event_id := "e2", email := "bob@example.com" }] }

/-- Witness for C10: users `u1` and `u2` observe the same outcome, and the
removal succeeds and drops the attendee row. -/
theorem c10_remove_attendee_ignores_user_witness :
    Api.remove_event_attendee c10Store "u1" "a1" =
      Api.remove_event_attendee c10Store "u2" "a1" ∧
    Api.remove_event_attendee c10Store "u1" "a1" =
      (.ok (), { c10Store with
                   attendees := c10Store.attendees.filter (fun a => !(a.id == "a1")) }) :=
  ⟨c10_remove_attendee_ignores_user.1 c10Store "u1" "u2" "a1",
   c10_remove_attendee_ignores_user.2 c10Store "u1" "a1"
     { id := "a1", event_id := "e2", email := "bob@example.com" } rfl rfl (by decide)⟩

/-- C2: the conflict-detection overlap test holds iff `start1 < end2` and
`start2 < end1` (half-open semantics); windows that merely touch — one
ending exactly where the other starts — never count as a conflict, in
either order. -/
theorem c2_overlap_iff_half_open :
    (∀ start1 end1 start2 end2 : Int,
        CalendarService._events_overlap start1 end1 start2 end2 = true ↔
          (start1 < end2 ∧ start2 < end1)) ∧
    (∀ a t b : Int, CalendarService._events_overlap a t t b = false) ∧
    (∀ a t b : Int, CalendarService._events_overlap t b a t = false) := by
  refine ⟨fun s1 e1 s2 e2 => ?_, fun a t b => ?_, fun a t b => ?_⟩ <;>
    simp [CalendarService._events_overlap]

/-- Witness for C2 at concrete instants. -/
theorem c2_overlap_iff_half_open_witness :
    CalendarService._events_overlap 0 2 1 3 = true ∧
    CalendarService._events_overlap 0 5 5 9 = false :=
  ⟨(c2_overlap_iff_half_open.1 0 2 1 3).mpr (by decide),
   c2_overlap_iff_half_open.2.1 0 5 9⟩

/-- C8: excluding an event id removes that event from the comparison set:
if every event on the user's calendars other than the excluded one fails
the overlap test against the candidate window, `check_availability`
returns `true` — in particular an event can be "moved" onto the window it
already occupies. -/
theorem c8_exclude_own_id (s : Store) (u : String) (st en : Int) (eid : String)
    (h : ∀ ev ∈ s.events,
        ((CalendarService.user_calendars s u).map (·.id)).contains ev.calendar_id = true →
        ev.id ≠ eid →
        CalendarService._events_overlap st en ev.start_time ev.end_time = false) :
    CalendarService.check_availability s u st en (some eid) = true := by
  unfold CalendarService.check_availability
  simp only [Bool.not_eq_true', List.any_eq_false]
  intro ev hev
  simp only [List.mem_filter, Bool.not_eq_true'] at hev
  obtain ⟨hmem, hid⟩ := hev
  obtain ⟨hse, hcal⟩ := mem_get_events hmem
  simp [h ev hse hcal (by simpa using hid)]

/-- Witness for C8: the single event `[0,10)` is excluded by its own id,
so the check reports the window `[0,10)` as available. -/
theorem c8_exclude_own_id_witness :
    CalendarService.check_availability
      { calendars := [{ id := "c1", user_id := "u1", name := "main", is_active := true }],
        events := [{ id := "e1", calendar_id := "c1", title := "standup",
                     start_time := 0, end_time := 10, status := "confirmed" }],
        attendees := [] } "u1" 0 10 (some "e1") = true :=
  c8_exclude_own_id _ "u1" 0 10 "e1" (by decide)
